import Mathlib

/-!
Verification of the consent-recording service `api-consentimentos`
(`src/api-consentimentos/app.py`): per-subject keyed pseudonym derivation
(crypto-shredding), the tamper-evident consent ledger, the terminal
"forgotten" lifecycle, and the token-to-subject authorization binding.

The embedding models the Flask handlers as pure functions over an explicit
database state. SQLAlchemy sessions are modelled by explicit state passing:
`db.session.commit()` points are where the returned state is taken from, and
a failed commit (unique-constraint violation on `validation_hash`) rolls the
state back to the last committed one, exactly as the `except` branch does.
Timestamps are abstracted to `Nat` (strictly increasing clock readings), with
`isoformat` rendered as the decimal numeral — an injective rendering, matching
the injectivity of Python's `datetime.isoformat` on distinct instants.
SHA-256, HMAC-SHA256 and UTF-8 are implemented in full (FIPS 180-4 / RFC 2104),
so `generate_pseudonym` and `validation_hash` compute the very hexdigests the
Python code computes.
-/

namespace ConsentApi

/-! ## SHA-256, HMAC-SHA256 and UTF-8 (the `hashlib` / `hmac` / `str.encode` layer) -/

/-- 2^32, the modulus for the 32-bit words of SHA-256. -/
def M32 : Nat := 4294967296

/-- Right rotation of a 32-bit word by `n` places. -/
def rotr32 (n x : Nat) : Nat := ((x >>> n) ||| (x <<< (32 - n))) % M32

/-- The SHA-256 `Ch` word function. -/
def ch32 (x y z : Nat) : Nat := (x &&& y) ^^^ ((x ^^^ 4294967295) &&& z)

/-- The SHA-256 `Maj` word function. -/
def maj32 (x y z : Nat) : Nat := (x &&& y) ^^^ (x &&& z) ^^^ (y &&& z)

/-- The SHA-256 Σ₀ word function. -/
def bigSigma0 (x : Nat) : Nat := rotr32 2 x ^^^ rotr32 13 x ^^^ rotr32 22 x

/-- The SHA-256 Σ₁ word function. -/
def bigSigma1 (x : Nat) : Nat := rotr32 6 x ^^^ rotr32 11 x ^^^ rotr32 25 x

/-- The SHA-256 σ₀ word function. -/
def smallSigma0 (x : Nat) : Nat := rotr32 7 x ^^^ rotr32 18 x ^^^ (x >>> 3)

/-- The SHA-256 σ₁ word function. -/
def smallSigma1 (x : Nat) : Nat := rotr32 17 x ^^^ rotr32 19 x ^^^ (x >>> 10)

/-- The 64 SHA-256 round constants of FIPS 180-4 §4.2.2 (decimal). -/
def shaK : List Nat :=
  [1116352408, 1899447441, 3049323471, 3921009573, 961987163, 1508970993,
   2453635748, 2870763221, 3624381080, 310598401, 607225278, 1426881987,
   1925078388, 2162078206, 2614888103, 3248222580, 3835390401, 4022224774,
   264347078, 604807628, 770255983, 1249150122, 1555081692, 1996064986,
   2554220882, 2821834349, 2952996808, 3210313671, 3336571891, 3584528711,
   113926993, 338241895, 666307205, 773529912, 1294757372, 1396182291,
   1695183700, 1986661051, 2177026350, 2456956037, 2730485921, 2820302411,
   3259730800, 3345764771, 3516065817, 3600352804, 4094571909, 275423344,
   430227734, 506948616, 659060556, 883997877, 958139571, 1322822218,
   1537002063, 1747873779, 1955562222, 2024104815, 2227730452, 2361852424,
   2428436474, 2756734187, 3204031479, 3329325298]

/-- The SHA-256 initial hash value of FIPS 180-4 §5.3.3 (decimal). -/
def shaH0 : List Nat :=
  [1779033703, 3144134277, 1013904242, 2773480762,
   1359893119, 2600822924, 528734635, 1541459225]

/-- Big-endian byte rendering of `v` on `n` bytes. -/
def beBytes : Nat → Nat → List Nat
  | 0, _ => []
  | n + 1, v => beBytes n (v / 256) ++ [v % 256]

/-- SHA-256 message padding: append `0x80`, zeros, and the 64-bit big-endian bit length. -/
def sha256Pad (msg : List Nat) : List Nat :=
  msg ++ [0x80] ++ List.replicate ((119 - msg.length % 64) % 64) 0 ++ beBytes 8 (msg.length * 8)

/-- The sixteen 32-bit words of the `i`-th 64-byte block of `bytes`. -/
def wordsOfBlock (bytes : List Nat) (i : Nat) : List Nat :=
  (List.range 16).map (fun j =>
    ((bytes.getD (i * 64 + j * 4) 0 * 256 + bytes.getD (i * 64 + j * 4 + 1) 0) * 256 +
      bytes.getD (i * 64 + j * 4 + 2) 0) * 256 + bytes.getD (i * 64 + j * 4 + 3) 0)

/-- Extend a 16-word block to the 64-word SHA-256 message schedule. -/
def extendW (w : List Nat) : List Nat :=
  (List.range 48).foldl (fun acc _ =>
    acc ++ [(smallSigma1 (acc.getD (acc.length - 2) 0) + acc.getD (acc.length - 7) 0 +
             smallSigma0 (acc.getD (acc.length - 15) 0) + acc.getD (acc.length - 16) 0) % M32]) w

/-- One SHA-256 compression step: update state `s` with round `t`, using schedule `w`. -/
def shaRound (w : List Nat) (s : List Nat) (t : Nat) : List Nat :=
  let t1 := (s.getD 7 0 + bigSigma1 (s.getD 4 0) + ch32 (s.getD 4 0) (s.getD 5 0) (s.getD 6 0) +
             shaK.getD t 0 + w.getD t 0) % M32
  let t2 := (bigSigma0 (s.getD 0 0) + maj32 (s.getD 0 0) (s.getD 1 0) (s.getD 2 0)) % M32
  [(t1 + t2) % M32, s.getD 0 0, s.getD 1 0, s.getD 2 0,
   (s.getD 3 0 + t1) % M32, s.getD 4 0, s.getD 5 0, s.getD 6 0]

/-- SHA-256 compression of a 16-word block into the chaining value `hh`. -/
def shaCompress (hh block : List Nat) : List Nat :=
  List.zipWith (fun x y => (x + y) % M32) hh ((List.range 64).foldl (shaRound (extendW block)) hh)

/-- SHA-256 of a byte list, as eight 32-bit words. -/
def sha256Words (msg : List Nat) : List Nat :=
  (List.range ((sha256Pad msg).length / 64)).foldl
    (fun hh i => shaCompress hh (wordsOfBlock (sha256Pad msg) i)) shaH0

/-- SHA-256 of a byte list, as 32 bytes. -/
def sha256Bytes (msg : List Nat) : List Nat := ((sha256Words msg).map (beBytes 4)).flatten

/-- Lowercase hex digit for a nibble. -/
def hexDigitChar (n : Nat) : Char := "0123456789abcdef".toList.getD n '0'

/-- Lowercase hex rendering of a byte list. -/
def bytesToHex (bs : List Nat) : String :=
  String.mk ((bs.map (fun b => [hexDigitChar (b / 16), hexDigitChar (b % 16)])).flatten)

/-- SHA-256 hexdigest of a byte list, as `hashlib.sha256(...).hexdigest()` produces it. -/
def sha256HexBytes (msg : List Nat) : String := bytesToHex (sha256Bytes msg)

/-- UTF-8 encoding of one code point. -/
def utf8Bytes (c : Nat) : List Nat :=
  if c < 0x80 then [c]
  else if c < 0x800 then [0xC0 ||| (c >>> 6), 0x80 ||| (c &&& 0x3F)]
  else if c < 0x10000 then
    [0xE0 ||| (c >>> 12), 0x80 ||| ((c >>> 6) &&& 0x3F), 0x80 ||| (c &&& 0x3F)]
  else [0xF0 ||| (c >>> 18), 0x80 ||| ((c >>> 12) &&& 0x3F), 0x80 ||| ((c >>> 6) &&& 0x3F),
        0x80 ||| (c &&& 0x3F)]

/-- UTF-8 bytes of a string, as Python `str.encode("utf-8")` produces them. -/
def strBytes (s : String) : List Nat := ((s.data.map (fun c => utf8Bytes c.toNat)).flatten)

/-- SHA-256 hexdigest of the UTF-8 encoding of a string. -/
def sha256Hex (s : String) : String := sha256HexBytes (strBytes s)

/-- HMAC-SHA256 hexdigest over byte lists, as `hmac.new(key, msg, hashlib.sha256).hexdigest()`
produces it (RFC 2104, block size 64). -/
def hmacSha256Hex (key msg : List Nat) : String :=
  let k0 := if key.length > 64 then sha256Bytes key else key
  let k0p := k0 ++ List.replicate (64 - k0.length) 0
  sha256HexBytes ((k0p.map (fun b => b ^^^ 0x5c)) ++
                  sha256Bytes ((k0p.map (fun b => b ^^^ 0x36)) ++ msg))

/-! ## Data model (the SQLAlchemy models of `app.py`) -/

/-- `generate_pseudonym` from `app.py`: HMAC-SHA256 of `str(user_id)` keyed by the
subject's secret key, both UTF-8 encoded. -/
def generate_pseudonym (user_id : Nat) (secret_key : String) : String :=
  hmacSha256Hex (strBytes secret_key) (strBytes (toString user_id))

/-- Timestamps are abstracted to `Nat`; `isoformat` is their (injective) rendering,
standing for `datetime.isoformat()`. -/
def isoformat (t : Nat) : String := toString t

/-- The `users_crypto` table row: subject id and nullable secret key. -/
structure UserCrypto where
  id_user : Nat
  secret_key : Option String
deriving DecidableEq

/-- The `policies` table row. -/
structure Policies where
  id : Nat
  version : String
  published_at : Option Nat
  description : Option String
  s3_url : String
  hash_sha256 : String
deriving DecidableEq

/-- The `consents` table row. -/
structure Consents where
  id : Nat
  subject_pseudonym : String
  id_policy : Nat
  created_at : Nat
  channel : String
  validation_hash : String
  status : String
deriving DecidableEq

/-- The brief policy projection `Policies.to_json_brief`. -/
structure PolicyBrief where
  id : Nat
  version : String
  published_at : Option String
deriving DecidableEq

/-- `Policies.to_json_brief` from `app.py`. -/
def Policies.to_json_brief (p : Policies) : PolicyBrief :=
  ⟨p.id, p.version, p.published_at.map isoformat⟩

/-- The JSON shape of `Consents.to_json`. -/
structure ConsentJson where
  id : Nat
  subject_pseudonym : String
  id_policy : Nat
  created_at : String
  channel : String
  validation_hash : String
  status : String
  policy_info : Option PolicyBrief
deriving DecidableEq

/-- The database: the three tables plus the autoincrement counter for consent ids. -/
structure DB where
  users : List UserCrypto
  policies : List Policies
  consents : List Consents
  nextConsentId : Nat
deriving DecidableEq

/-- `db.session.get(UserCrypto, uid)`: primary-key lookup. -/
def findUser (db : DB) (uid : Nat) : Option UserCrypto :=
  db.users.find? (fun u => u.id_user == uid)

/-- `db.session.get(Policies, pid)`: primary-key lookup. -/
def findPolicy (db : DB) (pid : Nat) : Option Policies :=
  db.policies.find? (fun p => p.id == pid)

/-- Python truthiness of the nullable `secret_key`: `not user.secret_key` is true
when the key is `None` or the empty string. -/
def keyAbsent : Option String → Bool
  | none => true
  | some s => s == ""

/-- `Consents.to_json` from `app.py`: the record's own fields together with the brief
projection of the related policy (`None` when the foreign key does not resolve). -/
def Consents.to_json (db : DB) (c : Consents) : ConsentJson :=
  ⟨c.id, c.subject_pseudonym, c.id_policy, isoformat c.created_at, c.channel,
   c.validation_hash, c.status, (findPolicy db c.id_policy).map Policies.to_json_brief⟩

/-! ## Requests and responses -/

/-- Outcome of the `Authorization` header check of the `token_required` decorator:
absent/malformed header, expired token, invalid token, or a validly signed token
carrying the real `user_id`. -/
inductive Token where
  | missing
  | expired
  | invalid
  | valid (user_id : Nat)
deriving DecidableEq

/-- The JSON body of `POST /consents`; each field is `none` when the key is absent. -/
structure ConsentBody where
  id_user : Option Nat
  id_policy : Option Nat
  channel : Option String
  status : Option String
deriving DecidableEq

/-- Privacy-safe projection of a consent row, as returned by the policy-scoped read:
`{id, subject_pseudonym, created_at, channel}` and nothing else. -/
structure ConsentProjection where
  id : Nat
  subject_pseudonym : String
  created_at : Nat
  channel : String
deriving DecidableEq

/-- An HTTP response of the service: status code plus the JSON body shape. -/
inductive Resp where
  | err (code : Nat) (error : String)
  | msg (code : Nat) (message : String)
  | created (code : Nat) (message : String) (consent : ConsentJson)
  | userList (code : Nat) (consents : List ConsentJson)
  | policyList (code : Nat) (rows : List ConsentProjection)
deriving DecidableEq

/-- The HTTP status code of a response. -/
def Resp.statusCode : Resp → Nat
  | .err c _ => c
  | .msg c _ => c
  | .created c _ _ => c
  | .userList c _ => c
  | .policyList c _ => c

/-- The pseudonym carried by a 201 creation response, if any. -/
def Resp.consentPseudonym : Resp → Option String
  | .created _ _ cj => some cj.subject_pseudonym
  | _ => none

/-- The `token_required` decorator: reject 401 on a missing, expired or invalid
token; otherwise run the handler with the `user_id` extracted from the token. -/
def withToken (tok : Token) (db : DB) (f : Nat → Resp × DB) : Resp × DB :=
  match tok with
  | .missing => (.err 401 "Acesso negado: Token de autenticação ausente.", db)
  | .expired => (.err 401 "Acesso negado: Token expirado.", db)
  | .invalid => (.err 401 "Acesso negado: Token inválido.", db)
  | .valid uid => f uid

/-! ## Endpoints -/

/-- The f-string `f"{subject_pseudonym}:{id_policy}:{timestamp.isoformat()}:{channel}:{status}"`
whose SHA-256 hexdigest is the record's `validation_hash`. -/
def consentHashInput (subject_pseudonym : String) (id_policy now : Nat)
    (channel status : String) : String :=
  subject_pseudonym ++ ":" ++ toString id_policy ++ ":" ++ isoformat now ++ ":" ++
    channel ++ ":" ++ status

/-- The tail of `create_consent` once the subject key record `user` is in hand and
committed (state `db1`): refuse an erased subject, derive the pseudonym, check the
policy, compute the validation hash, and append the consent row — a duplicate
`validation_hash` makes the final commit fail the unique constraint, caught by the
`except` branch as a 500 with a rollback to the last committed state `db1`. -/
def create_consent_key (id_policy : Nat) (channel status : String)
    (now : Nat) (user : UserCrypto) (db1 : DB) : Resp × DB :=
  if keyAbsent user.secret_key then
    (.err 403 "Titular anonimizado. Não é possível registrar novos dados.", db1)
  else
    let subject_pseudonym := generate_pseudonym user.id_user (user.secret_key.getD "")
    match findPolicy db1 id_policy with
    | none => (.err 404 "Política não encontrada", db1)
    | some _ =>
      let validation_hash := sha256Hex (consentHashInput subject_pseudonym id_policy now channel status)
      if db1.consents.any (fun c => c.validation_hash == validation_hash) then
        (.err 500 "Erro interno: UNIQUE constraint failed: consents.validation_hash", db1)
      else
        let newC : Consents := ⟨db1.nextConsentId, subject_pseudonym, id_policy, now,
                                channel, validation_hash, status⟩
        let db2 := { db1 with consents := db1.consents ++ [newC],
                              nextConsentId := db1.nextConsentId + 1 }
        (.created 201 "Consentimento registrado com sucesso!" (newC.to_json db2), db2)

/-- The body of `create_consent` after the field-presence and identity checks:
resolve-or-create the subject key record (the creation, when needed, is committed
at once and thus survives any later failure of the same request), then proceed. -/
def create_consent_core (current_user_id id_policy : Nat) (channel status : String)
    (freshKey : String) (now : Nat) (db : DB) : Resp × DB :=
  match findUser db current_user_id with
  | some u => create_consent_key id_policy channel status now u db
  | none =>
    let u : UserCrypto := ⟨current_user_id, some freshKey⟩
    create_consent_key id_policy channel status now u { db with users := db.users ++ [u] }

/-- `POST /consents` (`create_consent` in `app.py`). `data` is the parsed JSON body,
`freshKey` the value `secrets.token_hex(32)` would produce if a key record must be
created, `now` the `datetime.utcnow()` reading. -/
def create_consent (tok : Token) (data : Option ConsentBody) (freshKey : String)
    (now : Nat) (db : DB) : Resp × DB :=
  withToken tok db (fun current_user_id =>
    match data with
    | none => (.err 400 "Dados incompletos", db)
    | some d =>
      if d.id_user.isNone || d.id_policy.isNone || d.channel.isNone || d.status.isNone then
        (.err 400 "Dados incompletos", db)
      else if d.id_user.getD 0 ≠ current_user_id then
        (.err 403 "Conflito de Identidade: O titular do token não tem permissão para assinar por outro usuário.", db)
      else
        create_consent_core current_user_id (d.id_policy.getD 0) (d.channel.getD "")
          (d.status.getD "") freshKey now db)

/-- The comparison realizing `order_by(Consents.created_at.desc())`: `a` may come
before `b` when `a` is at least as recent. -/
def byCreatedDesc (a b : Consents) : Prop := b.created_at ≤ a.created_at

instance : DecidableRel byCreatedDesc := fun a b => Nat.decLe b.created_at a.created_at

instance : IsTotal Consents byCreatedDesc := ⟨fun a b => Nat.le_total b.created_at a.created_at⟩

instance : IsTrans Consents byCreatedDesc := ⟨fun _ _ _ h1 h2 => Nat.le_trans h2 h1⟩

/-- `order_by(Consents.created_at.desc())`: sort newest first. -/
def sortByCreatedDesc (l : List Consents) : List Consents := l.insertionSort byCreatedDesc

/-- `GET /consents/user/<user_id>` (`get_consents_by_user` in `app.py`): owner-only
read of the subject's consent trail, newest first, each row rendered by `to_json`. -/
def get_consents_by_user (tok : Token) (user_id : Nat) (db : DB) : Resp :=
  (withToken tok db (fun current_user_id =>
    if current_user_id ≠ user_id then
      (.err 403 "Acesso não autorizado ao histórico de terceiros.", db)
    else
      match findUser db user_id with
      | none => (.err 404 "Usuário não encontrado ou já foi anonimizado.", db)
      | some user =>
        if keyAbsent user.secret_key then
          (.err 404 "Usuário não encontrado ou já foi anonimizado.", db)
        else
          let subject_pseudonym := generate_pseudonym user.id_user (user.secret_key.getD "")
          let consents := sortByCreatedDesc
            (db.consents.filter (fun c => c.subject_pseudonym == subject_pseudonym))
          if consents.isEmpty then (.err 404 "Nenhum consentimento encontrado", db)
          else (.userList 200 (consents.map (Consents.to_json db)), db))).1

/-- Modelled from the spec: the body of `get_consents_by_policy` is missing from
`src/api-consentimentos/app.py` (the function is a stub whose body is `pass`).
Following §4.3 and §6 of the spec: 404 when the policy id is unknown; otherwise
200 with the privacy-safe projections `{id, subject_pseudonym, created_at, channel}`
of the consent rows referencing the policy (possibly the empty list). The route
has no `token_required` decorator, matching the spec's exemption of policy-scoped
reads from the identity binding. -/
def get_consents_by_policy (policy_id : Nat) (db : DB) : Resp :=
  match findPolicy db policy_id with
  | none => .err 404 "Política não encontrada"
  | some _ =>
    .policyList 200 ((db.consents.filter (fun c => c.id_policy == policy_id)).map
      (fun c => ⟨c.id, c.subject_pseudonym, c.created_at, c.channel⟩))

/-- The session mutation `user.secret_key = None` applied to the row with the given
primary key, leaving every other row untouched. -/
def eraseIfMatches (user_id : Nat) (v : UserCrypto) : UserCrypto :=
  if v.id_user == user_id then { v with secret_key := none } else v

/-- `DELETE /users/<user_id>/forget` (`forget_user` in `app.py`): owner-only
crypto-shredding — null out the subject's secret key; 404 when the record is
absent or the key already gone. -/
def forget_user (tok : Token) (user_id : Nat) (db : DB) : Resp × DB :=
  withToken tok db (fun current_user_id =>
    if current_user_id ≠ user_id then
      (.err 403 "Acesso não autorizado para acionar o esquecimento.", db)
    else
      match findUser db user_id with
      | none => (.msg 404 "Usuário já anonimizado ou inexistente.", db)
      | some user =>
        if keyAbsent user.secret_key then
          (.msg 404 "Usuário já anonimizado ou inexistente.", db)
        else
          (.msg 200 "Direito ao Esquecimento aplicado.",
           { db with users := db.users.map (eraseIfMatches user_id) }))

/-- A subject is Forgotten: its key record exists and its key is absent. -/
def Forgotten (db : DB) (uid : Nat) : Prop :=
  ∃ u, findUser db uid = some u ∧ keyAbsent u.secret_key = true

/-! ## Helper lemmas -/

/-- A record found by primary key carries that key. -/
theorem findUser_id_eq {db : DB} {uid : Nat} {u : UserCrypto}
    (h : findUser db uid = some u) : u.id_user = uid := by
  have := List.find?_some h
  simpa using this

/-- Appending a row does not change a primary-key lookup that already succeeds. -/
theorem findUser_append_of_found {db : DB} {uid : Nat} {u : UserCrypto}
    (h : findUser db uid = some u) (v : UserCrypto) :
    findUser { db with users := db.users ++ [v] } uid = some u := by
  unfold findUser at h ⊢
  simp only [List.find?_append, h, Option.or_some]

/-- After inserting a row for an unseen primary key, the lookup returns it. -/
theorem findUser_append_of_missing {db : DB} {uid : Nat}
    (h : findUser db uid = none) (v : UserCrypto) (hv : v.id_user = uid) :
    findUser { db with users := db.users ++ [v] } uid = some v := by
  unfold findUser at h ⊢
  simp [List.find?_append, h, hv]

/-- `eraseIfMatches` never changes the primary key. -/
theorem eraseIfMatches_id (w : Nat) (v : UserCrypto) :
    (eraseIfMatches w v).id_user = v.id_user := by
  unfold eraseIfMatches
  split <;> rfl

/-- Lookup in a user list after the forget mutation: the found row is the old row
passed through `eraseIfMatches`. -/
theorem find?_users_erase (l : List UserCrypto) (w uid : Nat) :
    (l.map (eraseIfMatches w)).find? (fun u => u.id_user == uid) =
      (l.find? (fun u => u.id_user == uid)).map (eraseIfMatches w) := by
  have hp : ((fun u : UserCrypto => u.id_user == uid) ∘ eraseIfMatches w) =
      (fun u : UserCrypto => u.id_user == uid) := by
    funext v
    simp [Function.comp, eraseIfMatches_id]
  simp only [List.find?_map, hp]

/-- `findUser` after the forget mutation, table-level form. -/
theorem findUser_map_erase (db : DB) (w uid : Nat) :
    findUser { db with users := db.users.map (eraseIfMatches w) } uid =
      (findUser db uid).map (eraseIfMatches w) := by
  unfold findUser
  exact find?_users_erase db.users w uid

/-- `eraseIfMatches` leaves an absent key absent. -/
theorem keyAbsent_eraseIfMatches {v : UserCrypto} (w : Nat)
    (h : keyAbsent v.secret_key = true) :
    keyAbsent (eraseIfMatches w v).secret_key = true := by
  unfold eraseIfMatches
  split
  · rfl
  · exact h

/-! ## C2 — identity binding rejects cross-subject requests on all three endpoints -/

/-- C2: a valid credential whose embedded subject id `tid` differs from the subject
id `uid` named in the request is rejected 403 with the identity-conflict error on
`POST /consents` (body `id_user = uid`), on `GET /consents/user/uid`, and on
`DELETE /users/uid/forget`, with the state unchanged in each case. -/
theorem C2_identity_binding (tid uid pid : Nat) (ch st fk : String) (now : Nat)
    (db : DB) (d : ConsentBody)
    (hne : tid ≠ uid)
    (hid : d.id_user = some uid) (hp : d.id_policy = some pid)
    (hc : d.channel = some ch) (hs : d.status = some st) :
    create_consent (.valid tid) (some d) fk now db =
      (.err 403 "Conflito de Identidade: O titular do token não tem permissão para assinar por outro usuário.", db) ∧
    get_consents_by_user (.valid tid) uid db =
      .err 403 "Acesso não autorizado ao histórico de terceiros." ∧
    forget_user (.valid tid) uid db =
      (.err 403 "Acesso não autorizado para acionar o esquecimento.", db) := by
  refine ⟨?_, ?_, ?_⟩
  · simp [create_consent, withToken, hid, hp, hc, hs, Ne.symm hne]
  · simp [get_consents_by_user, withToken, hne]
  · simp [forget_user, withToken, hne]

/-- Witness for C2 at the spec's own test vector: token subject 7, request subject 8. -/
theorem C2_identity_binding_witness :
    (7 : Nat) ≠ 8 ∧
    (ConsentBody.mk (some 8) (some 1) (some "w") (some "g")).id_user = some 8 ∧
    (create_consent (.valid 7) (some (ConsentBody.mk (some 8) (some 1) (some "w") (some "g"))) "k" 0 (DB.mk [] [] [] 1) =
      (.err 403 "Conflito de Identidade: O titular do token não tem permissão para assinar por outro usuário.", DB.mk [] [] [] 1) ∧
    get_consents_by_user (.valid 7) 8 (DB.mk [] [] [] 1) =
      .err 403 "Acesso não autorizado ao histórico de terceiros." ∧
    forget_user (.valid 7) 8 (DB.mk [] [] [] 1) =
      (.err 403 "Acesso não autorizado para acionar o esquecimento.", DB.mk [] [] [] 1)) :=
  ⟨by decide, rfl,
   C2_identity_binding 7 8 1 "w" "g" "k" 0 (DB.mk [] [] [] 1)
     (ConsentBody.mk (some 8) (some 1) (some "w") (some "g"))
     (by decide) rfl rfl rfl rfl⟩

/-! ## C8 — forget mutates only the subject's key record, never the ledger -/

/-- C8: `forget_user` performs no Ledger mutation — the consent table and the policy
table are unchanged by any call, on every path — and its only effect on the user
table is (possibly) passing it through `eraseIfMatches uid`, which nulls the secret
key of the row with primary key `uid` and leaves every other row untouched. -/
theorem C8_forget_frame (tok : Token) (uid : Nat) (db : DB) :
    (forget_user tok uid db).2.consents = db.consents ∧
    (forget_user tok uid db).2.policies = db.policies ∧
    (forget_user tok uid db).2.nextConsentId = db.nextConsentId ∧
    ((forget_user tok uid db).2.users = db.users ∨
     (forget_user tok uid db).2.users = db.users.map (eraseIfMatches uid)) := by
  unfold forget_user withToken
  match tok with
  | .missing => exact ⟨rfl, rfl, rfl, Or.inl rfl⟩
  | .expired => exact ⟨rfl, rfl, rfl, Or.inl rfl⟩
  | .invalid => exact ⟨rfl, rfl, rfl, Or.inl rfl⟩
  | .valid cur =>
    by_cases hne : cur ≠ uid
    · simp [hne]
    · simp only [hne, if_false]
      match hfu : findUser db uid with
      | none => simp
      | some u =>
        by_cases hk : keyAbsent u.secret_key
        · simp [hk]
        · simp [hk]

/-- Every branch of the consent-append tail leaves the user table alone. -/
theorem create_consent_key_users (pid : Nat) (ch st : String) (now : Nat)
    (user : UserCrypto) (db1 : DB) :
    (create_consent_key pid ch st now user db1).2.users = db1.users := by
  unfold create_consent_key
  split
  · rfl
  · split
    · rfl
    · dsimp only
      split
      · rfl
      · rfl

/-- `create_consent` either leaves the user table alone or appends exactly one row. -/
theorem create_consent_users_shape (tok : Token) (data : Option ConsentBody)
    (fk : String) (now : Nat) (db : DB) :
    (create_consent tok data fk now db).2.users = db.users ∨
    ∃ v, (create_consent tok data fk now db).2.users = db.users ++ [v] := by
  unfold create_consent withToken
  match tok with
  | .missing => exact Or.inl rfl
  | .expired => exact Or.inl rfl
  | .invalid => exact Or.inl rfl
  | .valid cur =>
    match data with
    | none => exact Or.inl rfl
    | some d =>
      dsimp only
      split
      · exact Or.inl rfl
      · split
        · exact Or.inl rfl
        · unfold create_consent_core
          match hfu : findUser db cur with
          | some u => exact Or.inl (create_consent_key_users _ _ _ _ u db)
          | none =>
            refine Or.inr ⟨⟨cur, some fk⟩, ?_⟩
            rw [create_consent_key_users]

/-- `forget_user` either leaves the user table alone or passes it through
`eraseIfMatches`. -/
theorem forget_user_users (tok : Token) (w : Nat) (db : DB) :
    (forget_user tok w db).2.users = db.users ∨
    (forget_user tok w db).2.users = db.users.map (eraseIfMatches w) := by
  unfold forget_user withToken
  match tok with
  | .missing => exact Or.inl rfl
  | .expired => exact Or.inl rfl
  | .invalid => exact Or.inl rfl
  | .valid cur =>
    by_cases hne : cur ≠ w
    · simp [hne]
    · simp only [hne, if_false]
      match hfu : findUser db w with
      | none => simp
      | some u =>
        by_cases hk : keyAbsent u.secret_key
        · simp [hk]
        · simp [hk]

/-- Forgottenness survives any change of state that keeps the user table, appends
a row to it, or passes it through the forget mutation. -/
theorem Forgotten_mono {db db' : DB} {uid : Nat}
    (h : db'.users = db.users ∨ (∃ v, db'.users = db.users ++ [v]) ∨
         ∃ w, db'.users = db.users.map (eraseIfMatches w))
    (hf : Forgotten db uid) : Forgotten db' uid := by
  obtain ⟨u, hu, hk⟩ := hf
  unfold findUser at hu
  rcases h with h | ⟨v, h⟩ | ⟨w, h⟩
  · exact ⟨u, by unfold findUser; rw [h]; exact hu, hk⟩
  · refine ⟨u, ?_, hk⟩
    unfold findUser
    rw [h, List.find?_append, hu]
    rfl
  · refine ⟨eraseIfMatches w u, ?_, keyAbsent_eraseIfMatches w hk⟩
    unfold findUser
    rw [h, find?_users_erase, hu]
    rfl

/-! ## C1 — Forgotten is terminal -/

/-- C1: for a subject `uid` whose key record exists with an absent key, a consent
write by the verified owner is refused 403 ("Titular anonimizado") with the state
unchanged — no key is regenerated or stored — and no operation (an arbitrary
`create_consent` call, an arbitrary `forget_user` call) ever takes the record back
from Forgotten to Active. -/
theorem C1_forgotten_terminal (db : DB) (uid pid : Nat) (u : UserCrypto)
    (d : ConsentBody) (ch st fk : String) (now : Nat) (tok2 : Token)
    (data2 : Option ConsentBody) (fk2 : String) (now2 w : Nat)
    (h1 : findUser db uid = some u) (h2 : keyAbsent u.secret_key = true)
    (hid : d.id_user = some uid) (hp : d.id_policy = some pid)
    (hc : d.channel = some ch) (hs : d.status = some st) :
    create_consent (.valid uid) (some d) fk now db =
      (.err 403 "Titular anonimizado. Não é possível registrar novos dados.", db) ∧
    Forgotten (create_consent tok2 data2 fk2 now2 db).2 uid ∧
    Forgotten (forget_user tok2 w db).2 uid := by
  have hf : Forgotten db uid := ⟨u, h1, h2⟩
  refine ⟨?_, ?_, ?_⟩
  · simp [create_consent, withToken, hid, hp, hc, hs, create_consent_core, h1,
          create_consent_key, h2]
  · refine Forgotten_mono ?_ hf
    rcases create_consent_users_shape tok2 data2 fk2 now2 db with h | ⟨v, h⟩
    · exact Or.inl h
    · exact Or.inr (Or.inl ⟨v, h⟩)
  · refine Forgotten_mono ?_ hf
    rcases forget_user_users tok2 w db with h | h
    · exact Or.inl h
    · exact Or.inr (Or.inr ⟨w, h⟩)

/-- Witness for C1: subject 5 is Forgotten; a well-formed owner write is refused 403
and the subject stays Forgotten across an arbitrary follow-up call. -/
theorem C1_forgotten_terminal_witness :
    findUser (DB.mk [⟨5, none⟩] [] [] 1) 5 = some ⟨5, none⟩ ∧
    keyAbsent (none : Option String) = true ∧
    (create_consent (.valid 5) (some (ConsentBody.mk (some 5) (some 1) (some "w") (some "g"))) "k" 0 (DB.mk [⟨5, none⟩] [] [] 1) =
      (.err 403 "Titular anonimizado. Não é possível registrar novos dados.", DB.mk [⟨5, none⟩] [] [] 1) ∧
    Forgotten (create_consent (.valid 5) (some (ConsentBody.mk (some 5) (some 1) (some "w") (some "g"))) "k2" 7 (DB.mk [⟨5, none⟩] [] [] 1)).2 5 ∧
    Forgotten (forget_user (.valid 5) 5 (DB.mk [⟨5, none⟩] [] [] 1)).2 5) :=
  ⟨by decide, by decide,
   C1_forgotten_terminal (DB.mk [⟨5, none⟩] [] [] 1) 5 1 ⟨5, none⟩
     (ConsentBody.mk (some 5) (some 1) (some "w") (some "g")) "w" "g" "k" 0
     (.valid 5) (some (ConsentBody.mk (some 5) (some 1) (some "w") (some "g"))) "k2" 7 5
     (by decide) (by decide) rfl rfl rfl rfl⟩

/-! ## C5 — forget result and idempotence (corrected) -/

/-- Counterexample to C5 as stated: erasing a never-seen subject does not return
200 with an `already_forgotten` body — the code answers 404 with a message. -/
theorem C5_counterexample :
    forget_user (.valid 5) 5 (DB.mk [] [] [] 1) =
      (.msg 404 "Usuário já anonimizado ou inexistente.", DB.mk [] [] [] 1) ∧
    (forget_user (.valid 5) 5 (DB.mk [] [] [] 1)).1.statusCode ≠ 200 := by
  exact ⟨by decide, by decide⟩

/-- C5 amended: a forget by the verified owner of an active subject returns 200
("Direito ao Esquecimento aplicado."), after which the subject is Forgotten; the
second of two successive calls returns 404 ("Usuário já anonimizado ou
inexistente.") with the state unchanged — a repeated forget is answered with 404,
not with a 200 body reporting the prior state. -/
theorem C5_forget_amended (db : DB) (uid : Nat) (u : UserCrypto)
    (h1 : findUser db uid = some u) (h2 : keyAbsent u.secret_key = false) :
    (forget_user (.valid uid) uid db).1 = .msg 200 "Direito ao Esquecimento aplicado." ∧
    Forgotten (forget_user (.valid uid) uid db).2 uid ∧
    forget_user (.valid uid) uid (forget_user (.valid uid) uid db).2 =
      (.msg 404 "Usuário já anonimizado ou inexistente.",
       (forget_user (.valid uid) uid db).2) := by
  have hid : u.id_user = uid := findUser_id_eq h1
  have hstep : forget_user (.valid uid) uid db =
      (.msg 200 "Direito ao Esquecimento aplicado.",
       { db with users := db.users.map (eraseIfMatches uid) }) := by
    simp [forget_user, withToken, h1, h2]
  have herased : eraseIfMatches uid u = { u with secret_key := none } := by
    unfold eraseIfMatches
    simp [hid]
  have hfind2 : findUser { db with users := db.users.map (eraseIfMatches uid) } uid =
      some { u with secret_key := none } := by
    rw [findUser_map_erase, h1]
    simp [herased]
  refine ⟨by rw [hstep], ⟨{ u with secret_key := none }, by rw [hstep]; exact hfind2, rfl⟩, ?_⟩
  rw [hstep]
  simp [forget_user, withToken, hfind2, keyAbsent]

/-- Witness for C5 at subject 9 with key "k". -/
theorem C5_forget_amended_witness :
    findUser (DB.mk [⟨9, some "k"⟩] [] [] 1) 9 = some ⟨9, some "k"⟩ ∧
    keyAbsent (some "k") = false ∧
    ((forget_user (.valid 9) 9 (DB.mk [⟨9, some "k"⟩] [] [] 1)).1 =
       .msg 200 "Direito ao Esquecimento aplicado." ∧
     Forgotten (forget_user (.valid 9) 9 (DB.mk [⟨9, some "k"⟩] [] [] 1)).2 9 ∧
     forget_user (.valid 9) 9 (forget_user (.valid 9) 9 (DB.mk [⟨9, some "k"⟩] [] [] 1)).2 =
       (.msg 404 "Usuário já anonimizado ou inexistente.",
        (forget_user (.valid 9) 9 (DB.mk [⟨9, some "k"⟩] [] [] 1)).2)) :=
  ⟨by decide, by decide,
   C5_forget_amended (DB.mk [⟨9, some "k"⟩] [] [] 1) 9 ⟨9, some "k"⟩ (by decide) (by decide)⟩

/-! ## C6 — request validation (corrected) -/

/-- C6 amended: `POST /consents` with a missing body or a missing field fails 400
("Dados incompletos") with the state unchanged; the status value itself is never
validated — a status outside {given, refused} is accepted (see the counterexample,
where "revoked" is stored). -/
theorem C6_validation_amended (uid : Nat) (data : Option ConsentBody) (fk : String)
    (now : Nat) (db : DB)
    (h : data = none ∨ ∃ d, data = some d ∧
         (d.id_user.isNone || d.id_policy.isNone || d.channel.isNone || d.status.isNone) = true) :
    create_consent (.valid uid) data fk now db = (.err 400 "Dados incompletos", db) := by
  rcases h with h | ⟨d, hd, hmiss⟩
  · simp [create_consent, withToken, h]
  · simp [create_consent, withToken, hd, hmiss]

set_option maxRecDepth 1000000 in
/-- Counterexample to C6 as stated: a `POST /consents` whose status is "revoked" —
outside {given, refused} — is not refused 400; it is accepted 201 and a consent
record with status "revoked" is appended. -/
theorem C6_counterexample :
    (create_consent (.valid 42) (some (ConsentBody.mk (some 42) (some 1) (some "w") (some "revoked"))) "f" 3
       (DB.mk [⟨42, some "a"⟩] [⟨1, "v", none, none, "s", "h"⟩] [] 1)).1.statusCode = 201 ∧
    (create_consent (.valid 42) (some (ConsentBody.mk (some 42) (some 1) (some "w") (some "revoked"))) "f" 3
       (DB.mk [⟨42, some "a"⟩] [⟨1, "v", none, none, "s", "h"⟩] [] 1)).1.statusCode ≠ 400 ∧
    ((create_consent (.valid 42) (some (ConsentBody.mk (some 42) (some 1) (some "w") (some "revoked"))) "f" 3
       (DB.mk [⟨42, some "a"⟩] [⟨1, "v", none, none, "s", "h"⟩] [] 1)).2.consents.map Consents.status) = ["revoked"] := by
  refine ⟨by decide, by decide, by decide⟩

/-- Witness for C6 amended: an absent JSON body is refused 400. -/
theorem C6_validation_amended_witness :
    ((none : Option ConsentBody) = none ∨ ∃ d, (none : Option ConsentBody) = some d ∧
       (d.id_user.isNone || d.id_policy.isNone || d.channel.isNone || d.status.isNone) = true) ∧
    create_consent (.valid 3) none "k" 0 (DB.mk [] [] [] 1) =
      (.err 400 "Dados incompletos", DB.mk [] [] [] 1) :=
  ⟨Or.inl rfl, C6_validation_amended 3 none "k" 0 (DB.mk [] [] [] 1) (Or.inl rfl)⟩

/-! ## C4 — duplicate validation_hash (corrected: surfaced as 500, not 409) -/

/-- The consent row `create_consent` appends for `user` in state `db1`. -/
def newConsent (user : UserCrypto) (pid : Nat) (ch st : String) (now : Nat) (db1 : DB) : Consents :=
  ⟨db1.nextConsentId, generate_pseudonym user.id_user (user.secret_key.getD ""), pid, now, ch,
   sha256Hex (consentHashInput (generate_pseudonym user.id_user (user.secret_key.getD "")) pid now ch st),
   st⟩

/-- The state after a successful append for `user` in state `db1`. -/
def postDB (user : UserCrypto) (pid : Nat) (ch st : String) (now : Nat) (db1 : DB) : DB :=
  { db1 with consents := db1.consents ++ [newConsent user pid ch st now db1],
             nextConsentId := db1.nextConsentId + 1 }

/-- The consent-append tail on the success path: active key, known policy, fresh
validation hash — the new row is appended and returned as 201. -/
theorem create_consent_key_success (pid : Nat) (ch st : String) (now : Nat)
    (user : UserCrypto) (db1 : DB) (p : Policies)
    (hk : keyAbsent user.secret_key = false)
    (hp : findPolicy db1 pid = some p)
    (hdup : db1.consents.any (fun c => c.validation_hash ==
        sha256Hex (consentHashInput (generate_pseudonym user.id_user (user.secret_key.getD "")) pid now ch st)) = false) :
    create_consent_key pid ch st now user db1 =
      (.created 201 "Consentimento registrado com sucesso!"
         (Consents.to_json (postDB user pid ch st now db1) (newConsent user pid ch st now db1)),
       postDB user pid ch st now db1) := by
  simp [create_consent_key, hk, hp, hdup, newConsent, postDB]

/-- The consent-append tail on the duplicate path: a row with the same
validation hash already exists, the commit fails the unique constraint, and the
handler answers 500 with the state rolled back. -/
theorem create_consent_key_duplicate (pid : Nat) (ch st : String) (now : Nat)
    (user : UserCrypto) (db1 : DB) (p : Policies)
    (hk : keyAbsent user.secret_key = false)
    (hp : findPolicy db1 pid = some p)
    (hdup : db1.consents.any (fun c => c.validation_hash ==
        sha256Hex (consentHashInput (generate_pseudonym user.id_user (user.secret_key.getD "")) pid now ch st)) = true) :
    create_consent_key pid ch st now user db1 =
      (.err 500 "Erro interno: UNIQUE constraint failed: consents.validation_hash", db1) := by
  simp [create_consent_key, hk, hp, hdup]

/-- C4 amended: two append attempts computing the same validation hash (same
pseudonym, policy, timestamp, channel, status): the first succeeds 201 and appends
the record, the second fails — but with the generic 500 internal error of the
`except` branch (the unique-constraint IntegrityError), not a 409 — and the second
attempt leaves the state exactly as the first left it: nothing is overwritten. -/
theorem C4_duplicate_amended (db : DB) (uid pid : Nat) (u : UserCrypto) (p : Policies)
    (ch st fk fk2 : String) (now : Nat)
    (h1 : findUser db uid = some u) (h2 : keyAbsent u.secret_key = false)
    (h3 : findPolicy db pid = some p)
    (h4 : db.consents.any (fun c => c.validation_hash ==
        sha256Hex (consentHashInput (generate_pseudonym u.id_user (u.secret_key.getD "")) pid now ch st)) = false) :
    (create_consent (.valid uid) (some ⟨some uid, some pid, some ch, some st⟩) fk now db).1.statusCode = 201 ∧
    (create_consent (.valid uid) (some ⟨some uid, some pid, some ch, some st⟩) fk now db).2.consents =
      db.consents ++ [newConsent u pid ch st now db] ∧
    create_consent (.valid uid) (some ⟨some uid, some pid, some ch, some st⟩) fk2 now
        (create_consent (.valid uid) (some ⟨some uid, some pid, some ch, some st⟩) fk now db).2 =
      (.err 500 "Erro interno: UNIQUE constraint failed: consents.validation_hash",
       (create_consent (.valid uid) (some ⟨some uid, some pid, some ch, some st⟩) fk now db).2) := by
  have hkey := create_consent_key_success pid ch st now u db p h2 h3 h4
  have hfirst : create_consent (.valid uid) (some ⟨some uid, some pid, some ch, some st⟩) fk now db =
      (.created 201 "Consentimento registrado com sucesso!"
         (Consents.to_json (postDB u pid ch st now db) (newConsent u pid ch st now db)),
       postDB u pid ch st now db) := by
    simp [create_consent, withToken, create_consent_core, h1, hkey]
  have h1' : findUser (postDB u pid ch st now db) uid = some u := h1
  have h3' : findPolicy (postDB u pid ch st now db) pid = some p := h3
  have hdup2 : (postDB u pid ch st now db).consents.any (fun c => c.validation_hash ==
      sha256Hex (consentHashInput (generate_pseudonym u.id_user (u.secret_key.getD "")) pid now ch st)) = true := by
    simp [postDB, newConsent]
  have hkey2 := create_consent_key_duplicate pid ch st now u (postDB u pid ch st now db) p h2 h3' hdup2
  have hsecond : create_consent (.valid uid) (some ⟨some uid, some pid, some ch, some st⟩) fk2 now
      (postDB u pid ch st now db) =
      (.err 500 "Erro interno: UNIQUE constraint failed: consents.validation_hash",
       postDB u pid ch st now db) := by
    simp [create_consent, withToken, create_consent_core, h1', hkey2]
  rw [hfirst]
  exact ⟨rfl, rfl, hsecond⟩

set_option maxRecDepth 1000000 in
/-- Counterexample to C4 as stated: resubmitting the byte-identical consent event
(same subject, policy, timestamp, channel, status) is refused — but with HTTP 500
from the generic exception handler, not the claimed 409. -/
theorem C4_counterexample :
    (create_consent (.valid 42) (some (ConsentBody.mk (some 42) (some 1) (some "w") (some "g"))) "f" 3
       (DB.mk [⟨42, some "a"⟩] [⟨1, "v", none, none, "s", "h"⟩] [] 1)).1.statusCode = 201 ∧
    (create_consent (.valid 42) (some (ConsentBody.mk (some 42) (some 1) (some "w") (some "g"))) "f2" 3
       (create_consent (.valid 42) (some (ConsentBody.mk (some 42) (some 1) (some "w") (some "g"))) "f" 3
         (DB.mk [⟨42, some "a"⟩] [⟨1, "v", none, none, "s", "h"⟩] [] 1)).2).1.statusCode = 500 ∧
    (create_consent (.valid 42) (some (ConsentBody.mk (some 42) (some 1) (some "w") (some "g"))) "f2" 3
       (create_consent (.valid 42) (some (ConsentBody.mk (some 42) (some 1) (some "w") (some "g"))) "f" 3
         (DB.mk [⟨42, some "a"⟩] [⟨1, "v", none, none, "s", "h"⟩] [] 1)).2).1.statusCode ≠ 409 ∧
    (create_consent (.valid 42) (some (ConsentBody.mk (some 42) (some 1) (some "w") (some "g"))) "f2" 3
       (create_consent (.valid 42) (some (ConsentBody.mk (some 42) (some 1) (some "w") (some "g"))) "f" 3
         (DB.mk [⟨42, some "a"⟩] [⟨1, "v", none, none, "s", "h"⟩] [] 1)).2).2 =
      (create_consent (.valid 42) (some (ConsentBody.mk (some 42) (some 1) (some "w") (some "g"))) "f" 3
         (DB.mk [⟨42, some "a"⟩] [⟨1, "v", none, none, "s", "h"⟩] [] 1)).2 := by
  refine ⟨by decide, by decide, by decide, by decide⟩

set_option maxRecDepth 1000000 in
/-- Witness for C4 amended: subject 42, key "a", policy 1, the same event twice. -/
theorem C4_duplicate_amended_witness :
    findUser (DB.mk [⟨42, some "a"⟩] [⟨1, "v", none, none, "s", "h"⟩] [] 1) 42 = some ⟨42, some "a"⟩ ∧
    keyAbsent (some "a") = false ∧
    findPolicy (DB.mk [⟨42, some "a"⟩] [⟨1, "v", none, none, "s", "h"⟩] [] 1) 1 =
      some ⟨1, "v", none, none, "s", "h"⟩ ∧
    ((create_consent (.valid 42) (some ⟨some 42, some 1, some "w", some "g"⟩) "f" 3
        (DB.mk [⟨42, some "a"⟩] [⟨1, "v", none, none, "s", "h"⟩] [] 1)).1.statusCode = 201 ∧
     (create_consent (.valid 42) (some ⟨some 42, some 1, some "w", some "g"⟩) "f" 3
        (DB.mk [⟨42, some "a"⟩] [⟨1, "v", none, none, "s", "h"⟩] [] 1)).2.consents =
       [] ++ [newConsent ⟨42, some "a"⟩ 1 "w" "g" 3 (DB.mk [⟨42, some "a"⟩] [⟨1, "v", none, none, "s", "h"⟩] [] 1)] ∧
     create_consent (.valid 42) (some ⟨some 42, some 1, some "w", some "g"⟩) "f2" 3
         (create_consent (.valid 42) (some ⟨some 42, some 1, some "w", some "g"⟩) "f" 3
           (DB.mk [⟨42, some "a"⟩] [⟨1, "v", none, none, "s", "h"⟩] [] 1)).2 =
       (.err 500 "Erro interno: UNIQUE constraint failed: consents.validation_hash",
        (create_consent (.valid 42) (some ⟨some 42, some 1, some "w", some "g"⟩) "f" 3
          (DB.mk [⟨42, some "a"⟩] [⟨1, "v", none, none, "s", "h"⟩] [] 1)).2)) :=
  ⟨by decide, by decide, by decide,
   C4_duplicate_amended (DB.mk [⟨42, some "a"⟩] [⟨1, "v", none, none, "s", "h"⟩] [] 1)
     42 1 ⟨42, some "a"⟩ ⟨1, "v", none, none, "s", "h"⟩ "w" "g" "f" "f2" 3
     (by decide) (by decide) (by decide) (by decide)⟩

/-! ## C3 — audit preservation via the policy-scoped read -/

/-- C3: for an existing policy, the policy-scoped read returns exactly the
privacy-safe projections {id, subject_pseudonym, created_at, channel} of its
consent rows (a shape with no subject_id field at all); a forget call by the
verified owner of subject `uid` succeeds yet leaves the policy-scoped response
verbatim unchanged — so every consent record created before the forget stays
retrievable there — while the by-user read for the forgotten subject now answers
404. -/
theorem C3_audit_preservation (db : DB) (pid uid : Nat) (p : Policies) (u : UserCrypto)
    (hp : findPolicy db pid = some p)
    (hu : findUser db uid = some u)
    (hk : keyAbsent u.secret_key = false) :
    get_consents_by_policy pid db =
      .policyList 200 ((db.consents.filter (fun c => c.id_policy == pid)).map
        (fun c => ⟨c.id, c.subject_pseudonym, c.created_at, c.channel⟩)) ∧
    (forget_user (.valid uid) uid db).1.statusCode = 200 ∧
    get_consents_by_policy pid (forget_user (.valid uid) uid db).2 =
      get_consents_by_policy pid db ∧
    get_consents_by_user (.valid uid) uid (forget_user (.valid uid) uid db).2 =
      .err 404 "Usuário não encontrado ou já foi anonimizado." := by
  have hid : u.id_user = uid := findUser_id_eq hu
  have hstep : forget_user (.valid uid) uid db =
      (.msg 200 "Direito ao Esquecimento aplicado.",
       { db with users := db.users.map (eraseIfMatches uid) }) := by
    simp [forget_user, withToken, hu, hk]
  have hp' : findPolicy { db with users := db.users.map (eraseIfMatches uid) } pid = some p := hp
  have hfind2 : findUser { db with users := db.users.map (eraseIfMatches uid) } uid =
      some { u with secret_key := none } := by
    rw [findUser_map_erase, hu]
    simp [eraseIfMatches, hid]
  refine ⟨by simp [get_consents_by_policy, hp], by rw [hstep]; rfl, ?_, ?_⟩
  · rw [hstep]
    simp [get_consents_by_policy, hp, hp']
  · rw [hstep]
    simp [get_consents_by_user, withToken, hfind2, keyAbsent]

/-- Witness for C3: policy 1, subject 42, one pre-existing consent row. -/
theorem C3_audit_preservation_witness :
    findPolicy (DB.mk [⟨42, some "a"⟩] [⟨1, "v", none, none, "s", "h"⟩] [⟨1, "p", 1, 5, "w", "vh", "g"⟩] 2) 1 =
      some ⟨1, "v", none, none, "s", "h"⟩ ∧
    findUser (DB.mk [⟨42, some "a"⟩] [⟨1, "v", none, none, "s", "h"⟩] [⟨1, "p", 1, 5, "w", "vh", "g"⟩] 2) 42 =
      some ⟨42, some "a"⟩ ∧
    keyAbsent (some "a") = false ∧
    (get_consents_by_policy 1 (DB.mk [⟨42, some "a"⟩] [⟨1, "v", none, none, "s", "h"⟩] [⟨1, "p", 1, 5, "w", "vh", "g"⟩] 2) =
       .policyList 200 (((DB.mk [⟨42, some "a"⟩] [⟨1, "v", none, none, "s", "h"⟩] [⟨1, "p", 1, 5, "w", "vh", "g"⟩] 2).consents.filter (fun c => c.id_policy == 1)).map
         (fun c => ⟨c.id, c.subject_pseudonym, c.created_at, c.channel⟩)) ∧
     (forget_user (.valid 42) 42 (DB.mk [⟨42, some "a"⟩] [⟨1, "v", none, none, "s", "h"⟩] [⟨1, "p", 1, 5, "w", "vh", "g"⟩] 2)).1.statusCode = 200 ∧
     get_consents_by_policy 1 (forget_user (.valid 42) 42 (DB.mk [⟨42, some "a"⟩] [⟨1, "v", none, none, "s", "h"⟩] [⟨1, "p", 1, 5, "w", "vh", "g"⟩] 2)).2 =
       get_consents_by_policy 1 (DB.mk [⟨42, some "a"⟩] [⟨1, "v", none, none, "s", "h"⟩] [⟨1, "p", 1, 5, "w", "vh", "g"⟩] 2) ∧
     get_consents_by_user (.valid 42) 42 (forget_user (.valid 42) 42 (DB.mk [⟨42, some "a"⟩] [⟨1, "v", none, none, "s", "h"⟩] [⟨1, "p", 1, 5, "w", "vh", "g"⟩] 2)).2 =
       .err 404 "Usuário não encontrado ou já foi anonimizado.") :=
  ⟨by decide, by decide, by decide,
   C3_audit_preservation (DB.mk [⟨42, some "a"⟩] [⟨1, "v", none, none, "s", "h"⟩] [⟨1, "p", 1, 5, "w", "vh", "g"⟩] 2)
     1 42 ⟨1, "v", none, none, "s", "h"⟩ ⟨42, some "a"⟩ (by decide) (by decide) (by decide)⟩

/-- The sort of the by-user read is a permutation of its input. -/
theorem sortByCreatedDesc_perm (l : List Consents) :
    List.Perm (sortByCreatedDesc l) l :=
  List.perm_insertionSort byCreatedDesc l

/-- The sort of the by-user read produces a `byCreatedDesc`-sorted list. -/
theorem sortByCreatedDesc_sorted (l : List Consents) :
    List.Sorted byCreatedDesc (sortByCreatedDesc l) :=
  List.sorted_insertionSort byCreatedDesc l

/-- Sorting preserves (non-)emptiness. -/
theorem sortByCreatedDesc_isEmpty (l : List Consents) :
    (sortByCreatedDesc l).isEmpty = l.isEmpty := by
  have hlen := (sortByCreatedDesc_perm l).length_eq
  cases h1 : (sortByCreatedDesc l).isEmpty <;> cases h2 : l.isEmpty <;> try rfl
  · rw [List.isEmpty_iff] at h2
    subst h2
    rw [List.length_nil, List.length_eq_zero] at hlen
    rw [hlen] at h1
    simp at h1
  · rw [List.isEmpty_iff] at h1
    rw [h1, List.length_nil] at hlen
    have h3 := (List.length_eq_zero).mp hlen.symm
    subst h3
    simp at h2

/-! ## C9 — by-subject read: newest first, enriched with the brief policy projection -/

/-- C9: the by-user read for the verified owner of an active subject with at least
one matching consent answers 200 with exactly the subject's consent rows (those
whose stored pseudonym equals the one derived from the subject's key), sorted by
`created_at` newest first (the output is `byCreatedDesc`-sorted and a permutation
of the matching rows), each rendered by `to_json`, which carries the brief policy
projection of the record's policy. -/
theorem C9_by_user_read (db : DB) (uid : Nat) (u : UserCrypto)
    (hu : findUser db uid = some u)
    (hk : keyAbsent u.secret_key = false)
    (hne : (db.consents.filter (fun c => c.subject_pseudonym ==
        generate_pseudonym u.id_user (u.secret_key.getD ""))).isEmpty = false) :
    get_consents_by_user (.valid uid) uid db =
      .userList 200 ((sortByCreatedDesc (db.consents.filter (fun c => c.subject_pseudonym ==
        generate_pseudonym u.id_user (u.secret_key.getD "")))).map (Consents.to_json db)) ∧
    List.Sorted byCreatedDesc (sortByCreatedDesc (db.consents.filter (fun c => c.subject_pseudonym ==
        generate_pseudonym u.id_user (u.secret_key.getD "")))) ∧
    List.Perm (sortByCreatedDesc (db.consents.filter (fun c => c.subject_pseudonym ==
        generate_pseudonym u.id_user (u.secret_key.getD ""))))
      (db.consents.filter (fun c => c.subject_pseudonym ==
        generate_pseudonym u.id_user (u.secret_key.getD ""))) ∧
    ((sortByCreatedDesc (db.consents.filter (fun c => c.subject_pseudonym ==
        generate_pseudonym u.id_user (u.secret_key.getD "")))).map (Consents.to_json db)).all
      (fun j => j.policy_info == (findPolicy db j.id_policy).map Policies.to_json_brief) = true := by
  have hne' : (sortByCreatedDesc (db.consents.filter (fun c => c.subject_pseudonym ==
      generate_pseudonym u.id_user (u.secret_key.getD "")))).isEmpty = false := by
    rw [sortByCreatedDesc_isEmpty]
    exact hne
  refine ⟨?_, sortByCreatedDesc_sorted _, sortByCreatedDesc_perm _, ?_⟩
  · simp only [get_consents_by_user, withToken, hu, hk, hne', ne_eq,
      not_true_eq_false, if_false, Bool.false_eq_true]
  · rw [List.all_eq_true]
    intro j hj
    obtain ⟨c, _, rfl⟩ := List.mem_map.mp hj
    simp [Consents.to_json]

set_option maxRecDepth 1000000 in
/-- Witness for C9: subject 42 with key "a" and two consent rows stamped 5 and 9;
the read returns them newest first with the policy projection attached. -/
theorem C9_by_user_read_witness :
    findUser (DB.mk [⟨42, some "a"⟩] [⟨1, "v", none, none, "s", "h"⟩] [⟨1, generate_pseudonym 42 "a", 1, 5, "w", "v1", "g"⟩, ⟨2, generate_pseudonym 42 "a", 1, 9, "w", "v2", "g"⟩] 3) 42 = some ⟨42, some "a"⟩ ∧
    keyAbsent (some "a") = false ∧
    ((DB.mk [⟨42, some "a"⟩] [⟨1, "v", none, none, "s", "h"⟩] [⟨1, generate_pseudonym 42 "a", 1, 5, "w", "v1", "g"⟩, ⟨2, generate_pseudonym 42 "a", 1, 9, "w", "v2", "g"⟩] 3).consents.filter (fun c => c.subject_pseudonym == generate_pseudonym 42 "a")).isEmpty = false ∧
    (get_consents_by_user (.valid 42) 42 (DB.mk [⟨42, some "a"⟩] [⟨1, "v", none, none, "s", "h"⟩] [⟨1, generate_pseudonym 42 "a", 1, 5, "w", "v1", "g"⟩, ⟨2, generate_pseudonym 42 "a", 1, 9, "w", "v2", "g"⟩] 3) =
       .userList 200 ((sortByCreatedDesc ((DB.mk [⟨42, some "a"⟩] [⟨1, "v", none, none, "s", "h"⟩] [⟨1, generate_pseudonym 42 "a", 1, 5, "w", "v1", "g"⟩, ⟨2, generate_pseudonym 42 "a", 1, 9, "w", "v2", "g"⟩] 3).consents.filter (fun c => c.subject_pseudonym == generate_pseudonym 42 "a"))).map
         (Consents.to_json (DB.mk [⟨42, some "a"⟩] [⟨1, "v", none, none, "s", "h"⟩] [⟨1, generate_pseudonym 42 "a", 1, 5, "w", "v1", "g"⟩, ⟨2, generate_pseudonym 42 "a", 1, 9, "w", "v2", "g"⟩] 3))) ∧
     List.Sorted byCreatedDesc (sortByCreatedDesc ((DB.mk [⟨42, some "a"⟩] [⟨1, "v", none, none, "s", "h"⟩] [⟨1, generate_pseudonym 42 "a", 1, 5, "w", "v1", "g"⟩, ⟨2, generate_pseudonym 42 "a", 1, 9, "w", "v2", "g"⟩] 3).consents.filter (fun c => c.subject_pseudonym == generate_pseudonym 42 "a"))) ∧
     List.Perm (sortByCreatedDesc ((DB.mk [⟨42, some "a"⟩] [⟨1, "v", none, none, "s", "h"⟩] [⟨1, generate_pseudonym 42 "a", 1, 5, "w", "v1", "g"⟩, ⟨2, generate_pseudonym 42 "a", 1, 9, "w", "v2", "g"⟩] 3).consents.filter (fun c => c.subject_pseudonym == generate_pseudonym 42 "a")))
       ((DB.mk [⟨42, some "a"⟩] [⟨1, "v", none, none, "s", "h"⟩] [⟨1, generate_pseudonym 42 "a", 1, 5, "w", "v1", "g"⟩, ⟨2, generate_pseudonym 42 "a", 1, 9, "w", "v2", "g"⟩] 3).consents.filter (fun c => c.subject_pseudonym == generate_pseudonym 42 "a")) ∧
     ((sortByCreatedDesc ((DB.mk [⟨42, some "a"⟩] [⟨1, "v", none, none, "s", "h"⟩] [⟨1, generate_pseudonym 42 "a", 1, 5, "w", "v1", "g"⟩, ⟨2, generate_pseudonym 42 "a", 1, 9, "w", "v2", "g"⟩] 3).consents.filter (fun c => c.subject_pseudonym == generate_pseudonym 42 "a"))).map
        (Consents.to_json (DB.mk [⟨42, some "a"⟩] [⟨1, "v", none, none, "s", "h"⟩] [⟨1, generate_pseudonym 42 "a", 1, 5, "w", "v1", "g"⟩, ⟨2, generate_pseudonym 42 "a", 1, 9, "w", "v2", "g"⟩] 3))).all
       (fun j => j.policy_info == (findPolicy (DB.mk [⟨42, some "a"⟩] [⟨1, "v", none, none, "s", "h"⟩] [⟨1, generate_pseudonym 42 "a", 1, 5, "w", "v1", "g"⟩, ⟨2, generate_pseudonym 42 "a", 1, 9, "w", "v2", "g"⟩] 3) j.id_policy).map Policies.to_json_brief) = true) :=
  ⟨by decide, by decide, by decide,
   C9_by_user_read (DB.mk [⟨42, some "a"⟩] [⟨1, "v", none, none, "s", "h"⟩] [⟨1, generate_pseudonym 42 "a", 1, 5, "w", "v1", "g"⟩, ⟨2, generate_pseudonym 42 "a", 1, 9, "w", "v2", "g"⟩] 3)
     42 ⟨42, some "a"⟩ (by decide) (by decide) (by decide)⟩

/-! ## C7 — validation-hash construction -/

/-- C7: whatever path produced it, a consent record returned as created (201)
carries `validation_hash` equal to the SHA-256 hexdigest of its own fields
`subject_pseudonym`, `policy_id`, `created_at`, `channel`, `status` concatenated
in that order (colon-separated, as the code's f-string builds it), and its
pseudonym is the HMAC-SHA256 hexdigest of the decimal subject id keyed by the
subject's stored secret key — the key held by the subject's record in the
post-state. -/
theorem C7_validation_hash (tok : Token) (data : Option ConsentBody) (fk : String)
    (now : Nat) (db : DB) (code : Nat) (m : String) (cj : ConsentJson)
    (h : (create_consent tok data fk now db).1 = .created code m cj) :
    code = 201 ∧
    cj.validation_hash = sha256Hex (cj.subject_pseudonym ++ ":" ++ toString cj.id_policy ++ ":" ++
      cj.created_at ++ ":" ++ cj.channel ++ ":" ++ cj.status) ∧
    ∃ uid key, tok = .valid uid ∧
      findUser (create_consent tok data fk now db).2 uid = some ⟨uid, some key⟩ ∧
      cj.subject_pseudonym = hmacSha256Hex (strBytes key) (strBytes (toString uid)) := by
  match tok with
  | .missing => exact absurd h (by simp [create_consent, withToken])
  | .expired => exact absurd h (by simp [create_consent, withToken])
  | .invalid => exact absurd h (by simp [create_consent, withToken])
  | .valid cur =>
    match data with
    | none => exact absurd h (by simp [create_consent, withToken])
    | some d =>
      by_cases hfields : (d.id_user.isNone || d.id_policy.isNone || d.channel.isNone || d.status.isNone) = true
      · exact absurd h (by simp [create_consent, withToken, hfields])
      · by_cases hident : d.id_user.getD 0 ≠ cur
        · exact absurd h (by simp [create_consent, withToken, hfields, hident])
        · match hfu : findUser db cur with
          | some u =>
            have hid : u.id_user = cur := findUser_id_eq hfu
            by_cases hk : keyAbsent u.secret_key = true
            · exact absurd h (by simp [create_consent, withToken, create_consent_core,
                hfu, create_consent_key, hfields, hident, hk])
            · have hk' : keyAbsent u.secret_key = false := by simpa using hk
              obtain ⟨k, hsk⟩ : ∃ k, u.secret_key = some k := by
                match hu : u.secret_key with
                | none => rw [hu] at hk'; exact absurd hk' (by simp [keyAbsent])
                | some k => exact ⟨k, rfl⟩
              match hp : findPolicy db (d.id_policy.getD 0) with
              | none => exact absurd h (by simp [create_consent, withToken,
                  create_consent_core, hfu, create_consent_key, hfields, hident, hk', hp])
              | some p =>
                by_cases hdup : db.consents.any (fun c => c.validation_hash ==
                    sha256Hex (consentHashInput (generate_pseudonym u.id_user (u.secret_key.getD ""))
                      (d.id_policy.getD 0) now (d.channel.getD "") (d.status.getD ""))) = true
                · have hvald := create_consent_key_duplicate (d.id_policy.getD 0) (d.channel.getD "")
                    (d.status.getD "") now u db p hk' hp hdup
                  have hcc : create_consent (.valid cur) (some d) fk now db =
                      (.err 500 "Erro interno: UNIQUE constraint failed: consents.validation_hash", db) := by
                    simp [create_consent, withToken, create_consent_core, hfu, hfields, hident, hvald]
                  rw [hcc] at h
                  exact absurd h (by simp)
                · have hdup' := (Bool.not_eq_true _).mp hdup
                  have hval := create_consent_key_success (d.id_policy.getD 0) (d.channel.getD "")
                    (d.status.getD "") now u db p hk' hp hdup'
                  have hcc : create_consent (.valid cur) (some d) fk now db =
                      (.created 201 "Consentimento registrado com sucesso!"
                        (Consents.to_json
                          (postDB u (d.id_policy.getD 0) (d.channel.getD "") (d.status.getD "") now db)
                          (newConsent u (d.id_policy.getD 0) (d.channel.getD "") (d.status.getD "") now db)),
                       postDB u (d.id_policy.getD 0) (d.channel.getD "") (d.status.getD "") now db) := by
                    simp [create_consent, withToken, create_consent_core, hfu, hfields, hident, hval]
                  rw [hcc] at h
                  rw [Resp.created.injEq] at h
                  obtain ⟨hcode, _, hcj⟩ := h
                  rw [hcc]
                  refine ⟨hcode.symm, ?_, cur, k, rfl, ?_, ?_⟩
                  · rw [← hcj]
                    rfl
                  · have hueq : u = ⟨cur, some k⟩ := by
                      cases u
                      simp_all
                    have h0 : findUser (postDB u (d.id_policy.getD 0) (d.channel.getD "") (d.status.getD "") now db) cur = some u := hfu
                    rw [h0, hueq]
                  · rw [← hcj]
                    simp [Consents.to_json, newConsent, generate_pseudonym, hid, hsk]
          | none =>
            by_cases hk : keyAbsent (some fk : Option String) = true
            · exact absurd h (by simp [create_consent, withToken, create_consent_core,
                hfu, create_consent_key, hfields, hident, hk])
            · have hk' : keyAbsent (some fk : Option String) = false := by simpa using hk
              match hp : findPolicy db (d.id_policy.getD 0) with
              | none =>
                have hp1 : findPolicy { db with users := db.users ++ [⟨cur, some fk⟩] }
                    (d.id_policy.getD 0) = none := hp
                exact absurd h (by simp [create_consent, withToken, create_consent_core,
                  hfu, create_consent_key, hfields, hident, hk', hp1])
              | some p =>
                have hp1 : findPolicy { db with users := db.users ++ [⟨cur, some fk⟩] }
                    (d.id_policy.getD 0) = some p := hp
                by_cases hdup : db.consents.any (fun c => c.validation_hash ==
                    sha256Hex (consentHashInput (generate_pseudonym (⟨cur, some fk⟩ : UserCrypto).id_user
                        ((⟨cur, some fk⟩ : UserCrypto).secret_key.getD ""))
                      (d.id_policy.getD 0) now (d.channel.getD "") (d.status.getD ""))) = true
                · have hdup1 : ({ db with users := db.users ++ [⟨cur, some fk⟩] } : DB).consents.any
                      (fun c => c.validation_hash ==
                        sha256Hex (consentHashInput (generate_pseudonym (⟨cur, some fk⟩ : UserCrypto).id_user
                            ((⟨cur, some fk⟩ : UserCrypto).secret_key.getD ""))
                          (d.id_policy.getD 0) now (d.channel.getD "") (d.status.getD ""))) = true := hdup
                  have hvald := create_consent_key_duplicate (d.id_policy.getD 0) (d.channel.getD "")
                    (d.status.getD "") now ⟨cur, some fk⟩
                    { db with users := db.users ++ [⟨cur, some fk⟩] } p hk' hp1 hdup1
                  have hcc : create_consent (.valid cur) (some d) fk now db =
                      (.err 500 "Erro interno: UNIQUE constraint failed: consents.validation_hash",
                       { db with users := db.users ++ [⟨cur, some fk⟩] }) := by
                    simp [create_consent, withToken, create_consent_core, hfu, hfields, hident, hvald]
                  rw [hcc] at h
                  exact absurd h (by simp)
                · have hdup' := (Bool.not_eq_true _).mp hdup
                  have hdup1 : ({ db with users := db.users ++ [⟨cur, some fk⟩] } : DB).consents.any
                      (fun c => c.validation_hash ==
                        sha256Hex (consentHashInput (generate_pseudonym (⟨cur, some fk⟩ : UserCrypto).id_user
                            ((⟨cur, some fk⟩ : UserCrypto).secret_key.getD ""))
                          (d.id_policy.getD 0) now (d.channel.getD "") (d.status.getD ""))) = false := hdup'
                  have hval := create_consent_key_success (d.id_policy.getD 0) (d.channel.getD "")
                    (d.status.getD "") now ⟨cur, some fk⟩
                    { db with users := db.users ++ [⟨cur, some fk⟩] } p hk' hp1 hdup1
                  have hcc : create_consent (.valid cur) (some d) fk now db =
                      (.created 201 "Consentimento registrado com sucesso!"
                        (Consents.to_json
                          (postDB ⟨cur, some fk⟩ (d.id_policy.getD 0) (d.channel.getD "") (d.status.getD "") now
                            { db with users := db.users ++ [⟨cur, some fk⟩] })
                          (newConsent ⟨cur, some fk⟩ (d.id_policy.getD 0) (d.channel.getD "") (d.status.getD "") now
                            { db with users := db.users ++ [⟨cur, some fk⟩] })),
                       postDB ⟨cur, some fk⟩ (d.id_policy.getD 0) (d.channel.getD "") (d.status.getD "") now
                         { db with users := db.users ++ [⟨cur, some fk⟩] }) := by
                    simp [create_consent, withToken, create_consent_core, hfu, hfields, hident, hval]
                  rw [hcc] at h
                  rw [Resp.created.injEq] at h
                  obtain ⟨hcode, _, hcj⟩ := h
                  rw [hcc]
                  refine ⟨hcode.symm, ?_, cur, fk, rfl, ?_, ?_⟩
                  · rw [← hcj]
                    rfl
                  · exact findUser_append_of_missing hfu ⟨cur, some fk⟩ rfl
                  · rw [← hcj]
                    simp [Consents.to_json, newConsent, generate_pseudonym]

set_option maxRecDepth 1000000 in
/-- Witness for C7: subject 42 with key "k1" creates a consent for policy 1 at
instant 100; the returned record carries exactly the HMAC-SHA256 pseudonym and
SHA-256 validation hash (digests cross-checked against Python hmac/hashlib). -/
theorem C7_validation_hash_witness :
    (create_consent (.valid 42) (some (ConsentBody.mk (some 42) (some 1) (some "web") (some "given"))) "fk" 100
       (DB.mk [⟨42, some "k1"⟩] [⟨1, "v1", some 50, none, "s3", "ph"⟩] [] 1)).1 =
      .created 201 "Consentimento registrado com sucesso!"
        (ConsentJson.mk 1 "40c5da01ecc4948880626c0b33a401794cbcae05bfe9730ea056546b34584575" 1 "100" "web"
          "41363409d44019540a4f08d7cff811271c27045962b5eab35a2f12265bcf2f6c" "given"
          (some ⟨1, "v1", some "50"⟩)) ∧
    ((201 : Nat) = 201 ∧
     (ConsentJson.mk 1 "40c5da01ecc4948880626c0b33a401794cbcae05bfe9730ea056546b34584575" 1 "100" "web"
        "41363409d44019540a4f08d7cff811271c27045962b5eab35a2f12265bcf2f6c" "given"
        (some ⟨1, "v1", some "50"⟩)).validation_hash =
       sha256Hex ((ConsentJson.mk 1 "40c5da01ecc4948880626c0b33a401794cbcae05bfe9730ea056546b34584575" 1 "100" "web"
          "41363409d44019540a4f08d7cff811271c27045962b5eab35a2f12265bcf2f6c" "given"
          (some ⟨1, "v1", some "50"⟩)).subject_pseudonym ++ ":" ++
         toString (ConsentJson.mk 1 "40c5da01ecc4948880626c0b33a401794cbcae05bfe9730ea056546b34584575" 1 "100" "web"
          "41363409d44019540a4f08d7cff811271c27045962b5eab35a2f12265bcf2f6c" "given"
          (some ⟨1, "v1", some "50"⟩)).id_policy ++ ":" ++
         (ConsentJson.mk 1 "40c5da01ecc4948880626c0b33a401794cbcae05bfe9730ea056546b34584575" 1 "100" "web"
          "41363409d44019540a4f08d7cff811271c27045962b5eab35a2f12265bcf2f6c" "given"
          (some ⟨1, "v1", some "50"⟩)).created_at ++ ":" ++
         (ConsentJson.mk 1 "40c5da01ecc4948880626c0b33a401794cbcae05bfe9730ea056546b34584575" 1 "100" "web"
          "41363409d44019540a4f08d7cff811271c27045962b5eab35a2f12265bcf2f6c" "given"
          (some ⟨1, "v1", some "50"⟩)).channel ++ ":" ++
         (ConsentJson.mk 1 "40c5da01ecc4948880626c0b33a401794cbcae05bfe9730ea056546b34584575" 1 "100" "web"
          "41363409d44019540a4f08d7cff811271c27045962b5eab35a2f12265bcf2f6c" "given"
          (some ⟨1, "v1", some "50"⟩)).status) ∧
     ∃ uid key, (Token.valid 42 : Token) = .valid uid ∧
       findUser (create_consent (.valid 42) (some (ConsentBody.mk (some 42) (some 1) (some "web") (some "given"))) "fk" 100
         (DB.mk [⟨42, some "k1"⟩] [⟨1, "v1", some 50, none, "s3", "ph"⟩] [] 1)).2 uid = some ⟨uid, some key⟩ ∧
       (ConsentJson.mk 1 "40c5da01ecc4948880626c0b33a401794cbcae05bfe9730ea056546b34584575" 1 "100" "web"
          "41363409d44019540a4f08d7cff811271c27045962b5eab35a2f12265bcf2f6c" "given"
          (some ⟨1, "v1", some "50"⟩)).subject_pseudonym =
         hmacSha256Hex (strBytes key) (strBytes (toString uid))) :=
  ⟨by decide,
   C7_validation_hash (.valid 42) (some (ConsentBody.mk (some 42) (some 1) (some "web") (some "given"))) "fk" 100
     (DB.mk [⟨42, some "k1"⟩] [⟨1, "v1", some 50, none, "s3", "ph"⟩] [] 1) 201
     "Consentimento registrado com sucesso!"
     (ConsentJson.mk 1 "40c5da01ecc4948880626c0b33a401794cbcae05bfe9730ea056546b34584575" 1 "100" "web"
       "41363409d44019540a4f08d7cff811271c27045962b5eab35a2f12265bcf2f6c" "given"
       (some ⟨1, "v1", some "50"⟩))
     (by decide)⟩

/-! ## C10 — the key record created before the policy check survives a policy 404 -/

/-- C10: a consent write by an authorized caller for a previously-unseen subject
and a non-existent policy fails 404 ("Política não encontrada"), yet the freshly
generated key record was already committed before the policy check: the post-state
contains the subject's record with the fresh key. A later retry, after the policy
exists, runs with a different `secrets.token_hex` draw (`fk2`) but reuses the
stored key `fk`: it succeeds 201 and derives the pseudonym from `fk`, and the
stored key is still `fk` afterwards. -/
theorem C10_key_persists (db : DB) (uid pid : Nat) (pol : Policies)
    (ch st fk fk2 : String) (now now2 : Nat)
    (h1 : findUser db uid = none)
    (h2 : findPolicy db pid = none)
    (h3 : (fk == "") = false)
    (hpol : pol.id = pid)
    (h4 : db.consents.any (fun c => c.validation_hash ==
        sha256Hex (consentHashInput (generate_pseudonym uid fk) pid now2 ch st)) = false) :
    create_consent (.valid uid) (some ⟨some uid, some pid, some ch, some st⟩) fk now db =
      (.err 404 "Política não encontrada", { db with users := db.users ++ [⟨uid, some fk⟩] }) ∧
    findUser { db with users := db.users ++ [⟨uid, some fk⟩] } uid = some ⟨uid, some fk⟩ ∧
    (create_consent (.valid uid) (some ⟨some uid, some pid, some ch, some st⟩) fk2 now2
      { db with users := db.users ++ [⟨uid, some fk⟩], policies := db.policies ++ [pol] }).1.statusCode = 201 ∧
    (create_consent (.valid uid) (some ⟨some uid, some pid, some ch, some st⟩) fk2 now2
      { db with users := db.users ++ [⟨uid, some fk⟩], policies := db.policies ++ [pol] }).1.consentPseudonym =
      some (generate_pseudonym uid fk) ∧
    findUser (create_consent (.valid uid) (some ⟨some uid, some pid, some ch, some st⟩) fk2 now2
      { db with users := db.users ++ [⟨uid, some fk⟩], policies := db.policies ++ [pol] }).2 uid =
      some ⟨uid, some fk⟩ := by
  have hk' : keyAbsent (some fk : Option String) = false := h3
  have hp1 : findPolicy { db with users := db.users ++ [⟨uid, some fk⟩] } pid = none := h2
  have hfirst : create_consent (.valid uid) (some ⟨some uid, some pid, some ch, some st⟩) fk now db =
      (.err 404 "Política não encontrada", { db with users := db.users ++ [⟨uid, some fk⟩] }) := by
    simp [create_consent, withToken, create_consent_core, h1, create_consent_key, hk', hp1]
  have hfu2 : findUser { db with users := db.users ++ [⟨uid, some fk⟩], policies := db.policies ++ [pol] } uid =
      some ⟨uid, some fk⟩ := findUser_append_of_missing h1 ⟨uid, some fk⟩ rfl
  have hp2 : findPolicy { db with users := db.users ++ [⟨uid, some fk⟩], policies := db.policies ++ [pol] } pid =
      some pol := by
    unfold findPolicy at h2 ⊢
    dsimp only
    rw [List.find?_append, h2, Option.none_or]
    simp [hpol]
  have hdup2 : ({ db with users := db.users ++ [⟨uid, some fk⟩], policies := db.policies ++ [pol] } : DB).consents.any
      (fun c => c.validation_hash ==
        sha256Hex (consentHashInput (generate_pseudonym (⟨uid, some fk⟩ : UserCrypto).id_user
            ((⟨uid, some fk⟩ : UserCrypto).secret_key.getD "")) pid now2 ch st)) = false := h4
  have hval2 := create_consent_key_success pid ch st now2 ⟨uid, some fk⟩
    { db with users := db.users ++ [⟨uid, some fk⟩], policies := db.policies ++ [pol] } pol hk' hp2 hdup2
  have hsecond : create_consent (.valid uid) (some ⟨some uid, some pid, some ch, some st⟩) fk2 now2
      { db with users := db.users ++ [⟨uid, some fk⟩], policies := db.policies ++ [pol] } =
      (.created 201 "Consentimento registrado com sucesso!"
        (Consents.to_json
          (postDB ⟨uid, some fk⟩ pid ch st now2
            { db with users := db.users ++ [⟨uid, some fk⟩], policies := db.policies ++ [pol] })
          (newConsent ⟨uid, some fk⟩ pid ch st now2
            { db with users := db.users ++ [⟨uid, some fk⟩], policies := db.policies ++ [pol] })),
       postDB ⟨uid, some fk⟩ pid ch st now2
         { db with users := db.users ++ [⟨uid, some fk⟩], policies := db.policies ++ [pol] }) := by
    simp [create_consent, withToken, create_consent_core, hfu2, hval2]
  refine ⟨hfirst, findUser_append_of_missing h1 ⟨uid, some fk⟩ rfl, ?_, ?_, ?_⟩
  · rw [hsecond]
    rfl
  · rw [hsecond]
    rfl
  · rw [hsecond]
    exact hfu2

set_option maxRecDepth 1000000 in
/-- Witness for C10: unseen subject 42, unknown policy 1; the 404 run persists the
key "a", and the retry with draw "b" still derives the pseudonym from "a". -/
theorem C10_key_persists_witness :
    findUser (DB.mk [] [] [] 1) 42 = none ∧
    findPolicy (DB.mk [] [] [] 1) 1 = none ∧
    (("a" : String) == "") = false ∧
    (Policies.mk 1 "v" none none "s" "h").id = 1 ∧
    (create_consent (.valid 42) (some ⟨some 42, some 1, some "w", some "g"⟩) "a" 3 (DB.mk [] [] [] 1) =
       (.err 404 "Política não encontrada", { DB.mk [] [] [] 1 with users := [] ++ [⟨42, some "a"⟩] }) ∧
     findUser { DB.mk [] [] [] 1 with users := [] ++ [⟨42, some "a"⟩] } 42 = some ⟨42, some "a"⟩ ∧
     (create_consent (.valid 42) (some ⟨some 42, some 1, some "w", some "g"⟩) "b" 9
       { DB.mk [] [] [] 1 with users := [] ++ [⟨42, some "a"⟩], policies := [] ++ [Policies.mk 1 "v" none none "s" "h"] }).1.statusCode = 201 ∧
     (create_consent (.valid 42) (some ⟨some 42, some 1, some "w", some "g"⟩) "b" 9
       { DB.mk [] [] [] 1 with users := [] ++ [⟨42, some "a"⟩], policies := [] ++ [Policies.mk 1 "v" none none "s" "h"] }).1.consentPseudonym =
       some (generate_pseudonym 42 "a") ∧
     findUser (create_consent (.valid 42) (some ⟨some 42, some 1, some "w", some "g"⟩) "b" 9
       { DB.mk [] [] [] 1 with users := [] ++ [⟨42, some "a"⟩], policies := [] ++ [Policies.mk 1 "v" none none "s" "h"] }).2 42 =
       some ⟨42, some "a"⟩) :=
  ⟨by decide, by decide, by decide, by decide,
   C10_key_persists (DB.mk [] [] [] 1) 42 1 (Policies.mk 1 "v" none none "s" "h")
     "w" "g" "a" "b" 3 9 (by decide) (by decide) (by decide) (by decide) (by decide)⟩

end ConsentApi
